import Mathlib

/-!
Verification development for the weee-bridge-min repository.

The definitions below are a shallow embedding of `src/api/weee/cart/add-real.ts`
(the current cart-automation route).  JavaScript strings are Lean `String`s,
JavaScript numbers are modelled as `Option Int` (with `none` playing the role
of `NaN`; only integral numbers occur in the claims), thrown errors are the
`Except.error` branch carrying the error's message text, and every external
effect (Playwright page interactions, the remote connection, environment
variables) is supplied through an explicit oracle/environment structure so the
control flow of the TypeScript code can be re-traced deterministically.
-/

/-! ## JavaScript value model -/

/-- A JSON-ish JavaScript value as it can appear in a request body field
(restricted to integral numbers, which is all the claims exercise). -/
inductive JsonVal where
  | undefined
  | null
  | bool (b : Bool)
  | num (n : Int)
  | str (s : String)
deriving DecidableEq, Repr

/-- JavaScript truthiness of a `JsonVal`. -/
def jsTruthy : JsonVal → Bool
  | .undefined => false
  | .null => false
  | .bool b => b
  | .num n => n != 0
  | .str s => s != ""

/-- JavaScript `String.prototype.trim` on a character list. -/
def jsTrimList (cs : List Char) : List Char :=
  ((cs.dropWhile Char.isWhitespace).reverse.dropWhile Char.isWhitespace).reverse

/-- JavaScript `String.prototype.trim`. -/
def jsTrimStr (s : String) : String := String.mk (jsTrimList s.toList)

/-- Lowercase every character (JS `toLowerCase` restricted to ASCII). -/
def lowerList (cs : List Char) : List Char := cs.map Char.toLower

/-- Accumulate a decimal numeral; `none` on the first non-digit. -/
def digitsToNat (acc : Nat) : List Char → Option Nat
  | [] => some acc
  | c :: cs => if c.isDigit then digitsToNat (acc * 10 + (c.toNat - 48)) cs else none

/-- Parse an optionally signed decimal integer, JS-`Number` style
(`none` = `NaN`). -/
def parseIntL : List Char → Option Int
  | [] => none
  | '-' :: c :: cs => (digitsToNat 0 (c :: cs)).map (fun n => -(n : Int))
  | '+' :: c :: cs => (digitsToNat 0 (c :: cs)).map (fun n => (n : Int))
  | cs => (digitsToNat 0 cs).map (fun n => (n : Int))

/-- JavaScript `Number(...)` on a string, restricted to integral numerals:
a blank string converts to `0`, an integral numeral to its value, anything
else to `NaN` (`none`). -/
def jsStrToNum (s : String) : Option Int :=
  let t := jsTrimList s.toList
  if t.isEmpty then some 0 else parseIntL t

/-- JavaScript `Number(...)` coercion (`none` = `NaN`). -/
def jsToNumber : JsonVal → Option Int
  | .undefined => none
  | .null => some 0
  | .bool b => some (if b then 1 else 0)
  | .num n => some n
  | .str s => jsStrToNum s

/-- `Number(it.qty || 1)` — the effective quantity computed by the handler
(src/api/weee/cart/add-real.ts line 171). -/
def effectiveQty (v : JsonVal) : Option Int :=
  jsToNumber (if jsTruthy v then v else .num 1)

/-- Substring test on character lists (an empty needle always matches). -/
def containsSubL (needle : List Char) : List Char → Bool
  | [] => needle.isEmpty
  | c :: rest => needle.isPrefixOf (c :: rest) || containsSubL needle rest

/-- Substring test (JS `String.prototype.includes`). -/
def containsSub (needle s : String) : Bool :=
  containsSubL needle.toList s.toList

/-- The regex `/429|Too Many Requests/i` applied to an error message
(`String(e?.message || e)` in the source). -/
def isRateLimitMsg (m : String) : Bool :=
  containsSub "429" m || containsSubL "too many requests".toList (lowerList m.toList)

/-! ## AuthGate: `requireAuth` (src/api/weee/cart/add-real.ts lines 4-15) -/

/-- One application of `auth.replace(/^Bearer\s+/i, "")`: if the list starts
with case-insensitive `Bearer` followed by at least one whitespace character,
return the remainder after the whitespace run, else `none` (regex no-match). -/
def bearerSplit : List Char → Option (List Char)
  | b :: e :: a :: r :: e2 :: r2 :: c :: rest =>
    if lowerList [b, e, a, r, e2, r2] == "bearer".toList && c.isWhitespace then
      some ((c :: rest).dropWhile Char.isWhitespace)
    else none
  | _ => none

/-- The `while (/^Bearer\s+/i.test(auth))` strip-and-retrim loop; each
successful strip removes at least seven characters, so `cs.length` fuel is
enough for the loop to run to quiescence. -/
def stripBearerGo : Nat → List Char → List Char
  | 0, cs => cs
  | f + 1, cs =>
    match bearerSplit cs with
    | some rest => stripBearerGo f (jsTrimList rest)
    | none => cs

/-- JavaScript truthiness of `process.env.X` (a missing variable is
`undefined`, an empty string is falsy). -/
def tokenTruthy : Option String → Bool
  | some t => t != ""
  | none => false

/-- `requireAuth` from src/api/weee/cart/add-real.ts: strip every leading
`Bearer ` prefix from the `authorization` header, then
`if (!auth && token) return true; if (auth && auth === token) return true;`
else deny. -/
def requireAuth (authHeader : Option String) (token : Option String) : Bool :=
  let rawAuth := authHeader.getD ""
  let cs := jsTrimList rawAuth.toList
  let auth := String.mk (stripBearerGo cs.length cs)
  if auth = "" ∧ tokenTruthy token then true
  else if auth ≠ "" ∧ token = some auth then true
  else false

/-! ## ItemResolver: `addItem` (src/api/weee/cart/add-real.ts lines 92-137) -/

/-- The per-item result object: `{added:true, query, title, qty}`,
`{added:false, query, reason}` or `{added:false, query, error}`. -/
inductive ItemResult where
  | added (query title : String) (qty : Option Int)
  | notFound (query reason : String)
  | failed (query error : String)
deriving DecidableEq, Repr

instance {ε α : Type} [DecidableEq ε] [DecidableEq α] : DecidableEq (Except ε α) :=
  fun x y =>
    match x, y with
    | .ok a, .ok b =>
      if h : a = b then isTrue (by rw [h]) else isFalse (fun hh => h (Except.ok.inj hh))
    | .error a, .error b =>
      if h : a = b then isTrue (by rw [h]) else isFalse (fun hh => h (Except.error.inj hh))
    | .ok _, .error _ => isFalse (fun hh => Except.noConfusion hh)
    | .error _, .ok _ => isFalse (fun hh => Except.noConfusion hh)

/-- `String(new Error("429"))`, the value `addItem` rethrows on a
rate-limit match, as observed by the handler's `String(err)`. -/
def err429Str : String := "Error: 429"

/-- The message of the Playwright timeout raised by
`cardToClick.click()` when the card locator matches zero elements
(a locator click waits for an element and times out). -/
def noCardMsg : String := "locator.click: Timeout 30000ms exceeded"

/-- Oracle describing how the live page reacts to one `addItem` call. Error
fields carry the message of the exception the corresponding Playwright call
would throw (`none` = the call succeeds). -/
structure PageEnv where
  /-- Failure during the search phase (`waitForSelector`/`fill`/`press`/
  `waitForLoadState`), if any. -/
  searchErr : Option String
  /-- `textContent` of each `[data-testid*="product-card"]` match, in result
  order (`productCards.count()` is its length). -/
  cards : List String
  /-- Failure of `cardToClick.click()` when at least one card exists. -/
  cardClickErr : Option String
  /-- `addBtn.count()` for the add-to-cart locator. -/
  addBtnCount : Nat
  /-- Failure of `addBtn.click(...)` when the control is present. -/
  addBtnClickErr : Option String
  /-- Outcome of each successive quantity-increase click (`true` = the click
  succeeds); an index beyond the list is a failing click. -/
  plusClicks : List Bool
deriving Repr

/-- First space-delimited token of the lowercased query
(`query.toLowerCase().split(" ")[0]`). -/
def firstToken (q : String) : List Char :=
  (lowerList q.toList).takeWhile (fun c => c ≠ ' ')

/-- The MATCHING loop: index of the first card whose text contains the first
query token case-insensitively, falling back to index 0 (`productCards.first()`). -/
def selectIdx (cards : List String) (query : String) : Nat :=
  match cards.findIdx? (fun t => containsSubL (firstToken query) (lowerList t.toList)) with
  | some i => i
  | none => 0

/-- `for (i = 1; i < qty; i++)` under the `qty > 1` guard: number of
quantity-increase iterations attempted (0 for `NaN` or `qty ≤ 1`). -/
def numPlusIters : Option Int → Nat
  | none => 0
  | some q => if 1 < q then (q - 1).toNat else 0

/-- Observable outcome of one `addItem` call: the returned result or thrown
error, whether the add-to-cart control was actually activated, how many
quantity-increase clicks succeeded, and which card was selected. -/
structure AddOut where
  result : Except String ItemResult
  addClicked : Bool
  plusOk : Nat
  selIdx : Nat
deriving Repr

/-- The `catch (err)` wrapper at the bottom of `addItem`: rethrow
`new Error("429")` on a rate-limit match, otherwise return
`{added:false, query, error}`. -/
def addCatch (query m : String) : Except String ItemResult :=
  if isRateLimitMsg m then .error err429Str else .ok (.failed query m)

/-- The ADJUSTING_QTY loop followed by the success return: clicks stop at the
first failure (`catch { break }`) and the returned object echoes the
requested `qty` and the query as `title`. -/
def finishAdd (env : PageEnv) (query : String) (qty : Option Int)
    (clicked : Bool) (sel : Nat) : AddOut :=
  ⟨.ok (.added query query qty), clicked,
    ((env.plusClicks.take (numPlusIters qty)).takeWhile id).length, sel⟩

/-- `addItem(page, query, qty)` from src/api/weee/cart/add-real.ts.  Note
that `cardToClick = targetCard || productCards.first()` is a Locator object
and hence always truthy, so the `if (!cardToClick)` guard returning
`"No matching product card"` can never fire; with zero cards the code instead
clicks the empty locator, which times out and is caught below. -/
def addItemRun (env : PageEnv) (query : String) (qty : Option Int) : AddOut :=
  let sel := selectIdx env.cards query
  match env.searchErr with
  | some m => ⟨addCatch query m, false, 0, sel⟩
  | none =>
    if env.cards.isEmpty then
      ⟨addCatch query noCardMsg, false, 0, sel⟩
    else
      match env.cardClickErr with
      | some m => ⟨addCatch query m, false, 0, sel⟩
      | none =>
        if env.addBtnCount != 0 then
          match env.addBtnClickErr with
          | some m => ⟨addCatch query m, false, 0, sel⟩
          | none => finishAdd env query qty true sel
        else
          finishAdd env query qty false sel

/-! ## RemoteBrowserConnector: `openBrowser`
(src/api/weee/cart/add-real.ts lines 21-64 and the earlier variant in
src/unnamed/part_001 lines 25-65) -/

/-- Which remote-control protocol a connect call uses:
`playwright.chromium.connect` (primary) or `connectOverCDP` (fallback). -/
inductive Protocol where
  | primary
  | cdp
deriving DecidableEq, Repr

/-- Outcome of one connect-and-create-context try (`.err` carries the
message of the exception it throws). -/
inductive AttemptOutcome where
  | ok
  | err (msg : String)
deriving DecidableEq, Repr

/-- Does the character list start with the literal `/playwright`? -/
def startsWithPW : List Char → Bool
  | '/' :: 'p' :: 'l' :: 'a' :: 'y' :: 'w' :: 'r' :: 'i' :: 'g' :: 'h' :: 't' :: _ => true
  | _ => false

/-- `ws.replace(/\/playwright(\?|$)/, "$1")`: remove the first occurrence of
`/playwright` that is followed by `?` or the end of the string (a JS
`replace` with a non-global regex rewrites only the leftmost match). -/
def replacePlaywright : List Char → List Char
  | [] => []
  | c :: cs =>
    if startsWithPW (c :: cs) then
      match (c :: cs).drop 11 with
      | [] => []
      | '?' :: rest => '?' :: rest
      | _ => c :: replacePlaywright cs
    else c :: replacePlaywright cs

/-- Endpoint normalization at the top of `openBrowser`. -/
def normalizeWs (ws : String) : String :=
  String.mk (replacePlaywright ws.toList)

/-- Observable trace of one `openBrowser` call: the produced handle or thrown
error (carrying the message), how many attempts ran, the backoff delays slept
between attempts, and every protocol try in order. -/
structure ConnTrace where
  result : Except String Unit
  attempts : Nat
  backoffs : List Nat
  protoTries : List Protocol
deriving Repr

/-- The `for (attempt = 1; attempt <= maxAttempts; attempt++)` retry loop of
src/api/weee/cart/add-real.ts.  `oc a` is the outcome of attempt `a` (each
attempt makes a single `playwright.chromium.connect` try; the nested
`try` block returns on success and rethrows on failure, so the duplicated
`newContext` lines after it are unreachable).  On a rate-limit-classified
failure with `attempt < 3` the code sleeps `300*attempt + 200*attempt`
milliseconds and continues; a non-rate-limit failure is rethrown at once;
after the loop the last error is thrown. -/
def openBrowserGo (oc : Nat → AttemptOutcome) : Nat → Nat → String → ConnTrace
  | 0, _, last => ⟨.error last, 0, [], []⟩
  | f + 1, a, _ =>
    match oc a with
    | .ok => ⟨.ok (), 1, [], [.primary]⟩
    | .err m =>
      if isRateLimitMsg m then
        if a < 3 then
          let r := openBrowserGo oc f (a + 1) m
          ⟨r.result, r.attempts + 1, (300 * a + 200 * a) :: r.backoffs,
            .primary :: r.protoTries⟩
        else ⟨.error m, 1, [], [.primary]⟩
      else ⟨.error m, 1, [], [.primary]⟩

/-- `openBrowser` from src/api/weee/cart/add-real.ts: normalize the endpoint,
fail fast when it is blank, then run up to `maxAttempts = 3` attempts. -/
def openBrowser (ws : String) (oc : Nat → AttemptOutcome) : ConnTrace :=
  if normalizeWs ws = "" then ⟨.error "Missing BROWSERLESS_WS", 0, [], []⟩
  else openBrowserGo oc 3 1 ""

/-- The earlier connector variant (src/unnamed/part_001 lines 25-65): each
attempt first tries `playwright.chromium.connect` (`oc1 a`), and on failure
immediately tries `connectOverCDP` (`oc2 a`); the attempt fails only when
both throw, and the rate-limit test is applied to both messages. -/
def openBrowserV1Go (oc1 oc2 : Nat → AttemptOutcome) :
    Nat → Nat → String → ConnTrace
  | 0, _, last => ⟨.error last, 0, [], []⟩
  | f + 1, a, _ =>
    match oc1 a with
    | .ok => ⟨.ok (), 1, [], [.primary]⟩
    | .err m1 =>
      match oc2 a with
      | .ok => ⟨.ok (), 1, [], [.primary, .cdp]⟩
      | .err m2 =>
        if isRateLimitMsg m1 || isRateLimitMsg m2 then
          if a < 3 then
            let r := openBrowserV1Go oc1 oc2 f (a + 1) m2
            ⟨r.result, r.attempts + 1, (300 * a + 200 * a) :: r.backoffs,
              .primary :: .cdp :: r.protoTries⟩
          else ⟨.error m2, 1, [], [.primary, .cdp]⟩
        else ⟨.error m2, 1, [], [.primary, .cdp]⟩

/-- `openBrowser` of src/unnamed/part_001 (same normalization and attempt
budget, with the per-attempt CDP fallback). -/
def openBrowserV1 (ws : String) (oc1 oc2 : Nat → AttemptOutcome) : ConnTrace :=
  if normalizeWs ws = "" then ⟨.error "Missing BROWSERLESS_WS", 0, [], []⟩
  else openBrowserV1Go oc1 oc2 3 1 ""

/-! ## BatchOrchestrator: the streaming `handler`
(src/api/weee/cart/add-real.ts lines 139-219) -/

/-- A request item as the handler reads it off `req.body.items`
(`name`/`unit` absent or string; `qty` any JSON value). -/
structure ReqItem where
  name : Option String
  unit : Option String
  qty : JsonVal

/-- `Array.prototype.join(" ")` on a list of strings. -/
def joinSpace : List String → String
  | [] => ""
  | [s] => s
  | s :: rest => s ++ " " ++ joinSpace rest

/-- `[it.name, it.unit].filter(Boolean).join(" ").trim()` — the resolved
search query for an item. -/
def resolvedQuery (name u : Option String) : String :=
  jsTrimStr (joinSpace (([name, u].filterMap id).filter (fun s => s ≠ "")))

/-- The message of the error `ensureLoggedIn` throws when the post-navigation
URL matches the login pattern. -/
def sessionExpiredMsg : String :=
  "Weee session is not logged in (cookie expired or invalid). Update WEEE_SESSION_COOKIE."

/-- One record written to the chunked response stream (or the early-exit
JSON bodies before streaming starts). -/
inductive OutRecord where
  | progress (processed total : Nat) (item : String) (result : ItemResult)
  | batchPause
  | done (total : Nat)
  | failure (detail : String)
  | badRequest
deriving DecidableEq, Repr

/-- Per-item observable outcome of the handler's inner try/catch around
`addItem` (lines 173-190): the recorded result, whether the recorded call
returned without throwing (which is what advances `processed`), how many
30-second rate-limit cooldown sleeps ran, and how many `addItem` calls
were made for this item. -/
structure ItemTrace where
  result : ItemResult
  okReturn : Bool
  cooldowns : Nat
  calls : Nat
deriving Repr

/-- The handler's per-item logic: call `addItem`; on a throw whose string
form contains `"429"` sleep 30 s and retry exactly once, recording a second
throw as `{added:false, query, error:String(err2)}`; record any other throw
as `{added:false, query, error:String(err)}` without a retry. -/
def processItem (e1 e2 : PageEnv) (q : String) (qty : Option Int) : ItemTrace :=
  match (addItemRun e1 q qty).result with
  | .ok r => ⟨r, true, 0, 1⟩
  | .error m =>
    if containsSub "429" m then
      match (addItemRun e2 q qty).result with
      | .ok r => ⟨r, true, 1, 2⟩
      | .error m2 => ⟨.failed q m2, false, 1, 2⟩
    else ⟨.failed q m, false, 0, 1⟩

/-- Records written by the item loop plus the final value of `processed`. -/
structure LoopOut where
  recs : List OutRecord
  processed : Nat
deriving Repr

/-- The `for (i = 0; i < items.length; i++)` loop of the handler followed by
the terminal `{status:"done", total}` write.  `pe i` supplies the page
environments for item `i`'s first call and its (potential) rate-limit retry;
`total` is `items.length` of the original request.  After each item one
progress record is written, and after every third item (when more remain)
one `batch_pause` record. -/
def runItemsGo (pe : Nat → PageEnv × PageEnv) (total : Nat) :
    List ReqItem → Nat → Nat → LoopOut
  | [], _, processed => ⟨[OutRecord.done total], processed⟩
  | it :: rest, i, processed =>
    let t := processItem (pe i).1 (pe i).2 (resolvedQuery it.name it.unit)
      (effectiveQty it.qty)
    let p2 := if t.okReturn then processed + 1 else processed
    let tail := runItemsGo pe total rest (i + 1) p2
    ⟨OutRecord.progress p2 total (resolvedQuery it.name it.unit) t.result
        :: ((if (i + 1) % 3 == 0 && i + 1 < total then [OutRecord.batchPause] else [])
            ++ tail.recs),
      tail.processed⟩

/-- Environment for a whole handler run (the request body and every external
outcome the try block can observe).  The method/auth gates are modelled
separately by `requireAuth`. -/
structure HandlerEnv where
  items : List ReqItem
  /-- Page environments for each item index (first call, retry call). -/
  pageEnvs : Nat → PageEnv × PageEnv
  /-- Whether `openBrowser()` returns a handle (otherwise it throws and
  `browser` stays `null`). -/
  openOk : Bool
  /-- Detail of the `openBrowser` failure when `openOk = false`. -/
  openErr : String
  /-- A throw from `applySessionCookie` (its `JSON.parse` is unguarded), if any. -/
  cookieErr : Option String
  /-- Whether `ensureLoggedIn` lands on a login/signin URL and throws. -/
  loginFail : Bool

/-- Observable trace of a full handler run: the records written to the
response, how many times `browser.close()` was invoked, the final value of
`processed`, and whether the close itself threw (its throw is swallowed by
the empty `catch {}` in the `finally` block). -/
structure HandlerTrace where
  writes : List OutRecord
  closes : Nat
  processed : Nat
  releaseThrew : Bool

/-- The exported `handler` of src/api/weee/cart/add-real.ts, from the
`items[]` validation onwards: empty items fail with 400 before the try
block; a setup failure (connection, cookie install, session check) writes
one error document; otherwise the item loop runs to completion.  The
`finally` block invokes `browser?.close()` — a real close only when
`openBrowser` succeeded and assigned `browser` — and swallows any throw
from it (`closeThrows`). -/
def runHandler (closeThrows : Bool) (env : HandlerEnv) : HandlerTrace :=
  if env.items.isEmpty then ⟨[.badRequest], 0, 0, false⟩
  else if env.openOk = false then ⟨[.failure env.openErr], 0, 0, false⟩
  else
    let core : List OutRecord × Nat :=
      match env.cookieErr with
      | some m => ([.failure m], 0)
      | none =>
        if env.loginFail then ([.failure sessionExpiredMsg], 0)
        else
          let lo := runItemsGo env.pageEnvs env.items.length env.items 0 0
          (lo.recs, lo.processed)
    ⟨core.1, 1, core.2, closeThrows⟩

/-! ## Trace observers used by the theorems -/

/-- The `processed` counters carried by the progress records of a write
stream, in order. -/
def progressProcessed : List OutRecord → List Nat
  | [] => []
  | .progress p _ _ _ :: rest => p :: progressProcessed rest
  | _ :: rest => progressProcessed rest

/-- Expected running counter: starting from `p`, bump on every `true` flag
and emit the counter after each flag. -/
def runningCounts (p : Nat) : List Bool → List Nat
  | [] => []
  | flag :: rest =>
    (if flag then p + 1 else p) :: runningCounts (if flag then p + 1 else p) rest

/-- The `okReturn` flag of each item of a request, in loop order. -/
def okFlags (pe : Nat → PageEnv × PageEnv) : List ReqItem → Nat → List Bool
  | [], _ => []
  | it :: rest, i =>
    (processItem (pe i).1 (pe i).2 (resolvedQuery it.name it.unit)
        (effectiveQty it.qty)).okReturn
      :: okFlags pe rest (i + 1)

/-! ## Concrete fixtures -/

/-- A fully healthy page: one matching card, an add control, plenty of
working quantity-increase clicks. -/
def okPage : PageEnv := ⟨none, ["milk 1 gal"], none, 1, none, [true, true, true]⟩

/-- A page whose search phase immediately hits the site rate limit. -/
def rlPage : PageEnv := ⟨some "429 Too Many Requests", [], none, 0, none, []⟩

/-- A search that returns zero candidate entries. -/
def noCardsPage : PageEnv := ⟨none, [], none, 1, none, []⟩

/-- A product page whose add-to-cart control is absent. -/
def absentBtnPage : PageEnv := ⟨none, ["milk 1 gal"], none, 0, none, []⟩

/-- A qty-3 request whose very first quantity-increase click fails. -/
def partialPlusPage : PageEnv := ⟨none, ["milk 1 gal"], none, 1, none, [false]⟩

/-- One-item batch whose item rate-limits on both the first call and the
retry. -/
def cEnv429 : HandlerEnv :=
  ⟨[⟨some "milk", none, .num 2⟩], fun _ => (rlPage, rlPage), true, "", none, false⟩

/-- One-item batch that succeeds end to end. -/
def cEnvOk : HandlerEnv :=
  ⟨[⟨some "milk", none, .num 1⟩], fun _ => (okPage, okPage), true, "", none, false⟩

/-- Every connection attempt fails with a rate-limit signal. -/
def ocRL : Nat → AttemptOutcome := fun _ => .err "429 Too Many Requests"

/-- Every connection attempt fails with a non-rate-limit error. -/
def ocBoom : Nat → AttemptOutcome := fun _ => .err "connection refused"

/-- Every connection attempt succeeds. -/
def ocOK : Nat → AttemptOutcome := fun _ => .ok

/-- A product page whose add-to-cart click throws a non-rate-limit error. -/
def badBtnPage : PageEnv :=
  ⟨none, ["milk 1 gal"], none, 1, some "element is not enabled", []⟩

/-! ## Helper lemmas -/

lemma openBrowserGo_3 (oc : Nat → AttemptOutcome) (last : String) :
    openBrowserGo oc 3 1 last =
      match oc 1 with
      | .ok => ⟨.ok (), 1, [], [.primary]⟩
      | .err m =>
        if isRateLimitMsg m then
          let r := openBrowserGo oc 2 2 m
          ⟨r.result, r.attempts + 1, 500 :: r.backoffs, .primary :: r.protoTries⟩
        else ⟨.error m, 1, [], [.primary]⟩ := rfl

lemma openBrowserGo_2 (oc : Nat → AttemptOutcome) (last : String) :
    openBrowserGo oc 2 2 last =
      match oc 2 with
      | .ok => ⟨.ok (), 1, [], [.primary]⟩
      | .err m =>
        if isRateLimitMsg m then
          let r := openBrowserGo oc 1 3 m
          ⟨r.result, r.attempts + 1, 1000 :: r.backoffs, .primary :: r.protoTries⟩
        else ⟨.error m, 1, [], [.primary]⟩ := rfl

lemma openBrowserGo_1 (oc : Nat → AttemptOutcome) (last : String) :
    openBrowserGo oc 1 3 last =
      match oc 3 with
      | .ok => ⟨.ok (), 1, [], [.primary]⟩
      | .err m =>
        if isRateLimitMsg m then ⟨.error m, 1, [], [.primary]⟩
        else ⟨.error m, 1, [], [.primary]⟩ := rfl

/-- Full unfolding of the three-attempt retry loop. -/
lemma openBrowserGo_run (oc : Nat → AttemptOutcome) :
    openBrowserGo oc 3 1 "" =
      match oc 1 with
      | .ok => ⟨.ok (), 1, [], [.primary]⟩
      | .err m1 =>
        if isRateLimitMsg m1 then
          match oc 2 with
          | .ok => ⟨.ok (), 2, [500], [.primary, .primary]⟩
          | .err m2 =>
            if isRateLimitMsg m2 then
              match oc 3 with
              | .ok => ⟨.ok (), 3, [500, 1000], [.primary, .primary, .primary]⟩
              | .err m3 => ⟨.error m3, 3, [500, 1000], [.primary, .primary, .primary]⟩
            else ⟨.error m2, 2, [500], [.primary, .primary]⟩
        else ⟨.error m1, 1, [], [.primary]⟩ := by
  rw [openBrowserGo_3]
  cases h1 : oc 1 with
  | ok => rfl
  | err m1 =>
    cases hr1 : isRateLimitMsg m1 with
    | false => simp [hr1]
    | true =>
      simp only [hr1, if_true]
      rw [openBrowserGo_2]
      cases h2 : oc 2 with
      | ok => rfl
      | err m2 =>
        cases hr2 : isRateLimitMsg m2 with
        | false => simp [hr2]
        | true =>
          simp only [hr2, if_true]
          rw [openBrowserGo_1]
          cases h3 : oc 3 with
          | ok => rfl
          | err m3 => cases hr3 : isRateLimitMsg m3 <;> simp [hr3]

lemma runItemsGo_progress_counts (pe : Nat → PageEnv × PageEnv) (total : Nat) :
    ∀ (items : List ReqItem) (i p : Nat),
      progressProcessed (runItemsGo pe total items i p).recs =
        runningCounts p (okFlags pe items i) := by
  intro items
  induction items with
  | nil => intro i p; simp [runItemsGo, okFlags, runningCounts, progressProcessed]
  | cons it rest ih =>
    intro i p
    by_cases hp : ((i + 1) % 3 == 0 && i + 1 < total) = true <;>
      simp [runItemsGo, okFlags, runningCounts, progressProcessed, hp, ih]

lemma runItemsGo_processed (pe : Nat → PageEnv × PageEnv) (total : Nat) :
    ∀ (items : List ReqItem) (i p : Nat),
      (runItemsGo pe total items i p).processed = p + (okFlags pe items i).count true := by
  intro items
  induction items with
  | nil => intro i p; simp [runItemsGo, okFlags]
  | cons it rest ih =>
    intro i p
    have hok := ih (i + 1)
    cases hf : (processItem (pe i).1 (pe i).2 (resolvedQuery it.name it.unit)
        (effectiveQty it.qty)).okReturn <;>
      simp [runItemsGo, okFlags, hf, hok, List.count_cons]
    omega

lemma runItemsGo_terminal (pe : Nat → PageEnv × PageEnv) (total : Nat) :
    ∀ (items : List ReqItem) (i p : Nat),
      ∃ pre, (runItemsGo pe total items i p).recs = pre ++ [OutRecord.done total] := by
  intro items
  induction items with
  | nil => intro i p; exact ⟨[], rfl⟩
  | cons it rest ih =>
    intro i p
    obtain ⟨pre, hpre⟩ := ih (i + 1)
      (if (processItem (pe i).1 (pe i).2 (resolvedQuery it.name it.unit)
          (effectiveQty it.qty)).okReturn then p + 1 else p)
    refine ⟨OutRecord.progress
        (if (processItem (pe i).1 (pe i).2 (resolvedQuery it.name it.unit)
            (effectiveQty it.qty)).okReturn then p + 1 else p)
        total (resolvedQuery it.name it.unit)
        (processItem (pe i).1 (pe i).2 (resolvedQuery it.name it.unit)
          (effectiveQty it.qty)).result
      :: ((if (i + 1) % 3 == 0 && i + 1 < total then [OutRecord.batchPause] else []) ++ pre),
      ?_⟩
    simp [runItemsGo, hpre]

lemma okFlags_length (pe : Nat → PageEnv × PageEnv) :
    ∀ (items : List ReqItem) (i : Nat), (okFlags pe items i).length = items.length := by
  intro items
  induction items with
  | nil => intro i; rfl
  | cons it rest ih => intro i; simp [okFlags, ih]

lemma runningCounts_length (p : Nat) :
    ∀ flags : List Bool, (runningCounts p flags).length = flags.length := by
  intro flags
  induction flags generalizing p with
  | nil => rfl
  | cons f rest ih => simp [runningCounts, ih]

/-! ## Claim theorems -/

/-- C1: the claim says `requireAuth` accepts a request only if the presented
bearer credential equals the configured secret, and in particular never
accepts a request presenting no credential while a secret is configured.
The code violates this: with `ACTIONS_BEARER_TOKEN` set to `"s3cret"`, a
request with no `authorization` header (and likewise an empty or
`Bearer`-only header) is accepted by the `if (!auth && token) return true`
branch (a `Bearer`-only header trims to the literal `Bearer` and is
rejected as a wrong credential). A matching credential is also accepted and
a wrong one rejected, so the implicit unauthenticated default is the
divergence. -/
theorem requireAuth_missing_credential_accepted_c1 :
    requireAuth none (some "s3cret") = true ∧
    requireAuth (some "") (some "s3cret") = true ∧
    requireAuth (some "Bearer s3cret") (some "s3cret") = true ∧
    requireAuth (some "Bearer wrong") (some "s3cret") = false ∧
    tokenTruthy (some "s3cret") = true := by decide

/-- C4: the claim says the effective quantity is always an integer at least 1,
with absent/non-numeric qty defaulting to 1 and any qty below 1 raised to 1.
Counterexample: `Number(it.qty || 1)` passes the truthy value `-2` through
unchanged (and a truthy non-numeric string becomes `NaN`, not 1). -/
theorem effectiveQty_counterexample_c4 :
    effectiveQty (.num (-2)) = some (-2) ∧ ¬ (1 ≤ (-2 : Int)) ∧
    effectiveQty (.str "abc") = none := by decide

/-- C4 (amended): the handler computes `Number(it.qty || 1)`: a falsy qty
field (absent, null, false, 0, empty string) yields 1, and any truthy qty is
passed through JavaScript Number coercion unchanged — so values below 1
other than 0 are not clamped, and truthy non-numeric strings yield NaN. -/
theorem effectiveQty_coercion_c4 (v : JsonVal) :
    (jsTruthy v = false → effectiveQty v = some 1) ∧
    (jsTruthy v = true → effectiveQty v = jsToNumber v) := by
  constructor <;> intro h <;> simp [effectiveQty, jsToNumber, h]

theorem effectiveQty_coercion_c4_witness :
    (jsTruthy .undefined = false ∧ effectiveQty .undefined = some 1) ∧
    (jsTruthy (.num (-2)) = true ∧ effectiveQty (.num (-2)) = jsToNumber (.num (-2))) :=
  ⟨⟨by decide, (effectiveQty_coercion_c4 .undefined).1 (by decide)⟩,
   ⟨by decide, (effectiveQty_coercion_c4 (.num (-2))).2 (by decide)⟩⟩

/-- C5: the claim says a search with zero candidate entries yields
`NotFound(query, "No results")` without raising. In the code the guard that
was meant to catch this (`if (!cardToClick)`) can never fire, because
`productCards.first()` is a Locator object and always truthy; instead the
click on the empty locator times out and the catch block records
`{added:false, query, error: <timeout message>}` — a Failed result, not
NotFound — though indeed nothing is raised to the orchestrator. -/
theorem addItem_zero_results_failed_c5 :
    (addItemRun noCardsPage "milk" (some 1)).result =
      .ok (.failed "milk" noCardMsg) ∧
    ItemResult.failed "milk" noCardMsg ≠ ItemResult.notFound "milk" "No results" := by
  decide

/-- C3: the claim says the `qty` of an emitted Added result equals the
achieved quantity (1 plus the successful increase clicks). Counterexample:
a request for qty 3 whose first increase click fails still reports
`qty = 3` even though only 0 increase activations succeeded. -/
theorem addItem_reported_qty_counterexample_c3 :
    (addItemRun partialPlusPage "milk" (some 3)).result =
      .ok (.added "milk" "milk" (some 3)) ∧
    (addItemRun partialPlusPage "milk" (some 3)).plusOk = 0 ∧
    (3 : Int) ≠ 1 + ((addItemRun partialPlusPage "milk" (some 3)).plusOk : Int) := by
  decide

/-- C3 (amended): a partial failure of the quantity-increase control stops
the adjustment loop early without failing the item, but the `qty` field of
the emitted Added result is the requested quantity, not the achieved one:
whenever the search, card click and (if present) add-button click succeed,
the result is `Added(query, query, qty)` for the requested `qty`, whatever
the increase clicks did. -/
theorem addItem_reported_qty_c3 (env : PageEnv) (q : String) (qty : Option Int)
    (hs : env.searchErr = none) (hc : env.cards ≠ []) (hk : env.cardClickErr = none)
    (hb : env.addBtnCount = 0 ∨ env.addBtnClickErr = none) :
    (addItemRun env q qty).result = .ok (.added q q qty) := by
  have hemp : env.cards.isEmpty = false := by
    cases hcc : env.cards with
    | nil => exact absurd hcc hc
    | cons a l => rfl
  rcases hb with hb | hb
  · simp [addItemRun, hs, hk, hemp, hb, finishAdd]
  · simp only [addItemRun, hs, hk, hemp, hb, finishAdd, Bool.false_eq_true, if_false]
    by_cases hbc : (env.addBtnCount != 0) = true <;> simp [hbc]

theorem addItem_reported_qty_c3_witness :
    (okPage.searchErr = none ∧ okPage.cards ≠ []) ∧
    (addItemRun okPage "milk" (some 2)).result = .ok (.added "milk" "milk" (some 2)) :=
  ⟨⟨rfl, by decide⟩,
   addItem_reported_qty_c3 okPage "milk" (some 2) rfl (by decide) rfl (Or.inr rfl)⟩

/-- C6: the claim says an absent or unresponsive add-to-cart control yields
a Failed result, so every Added reflects an actual activation.
Counterexample: with the control absent (`addBtn.count() = 0`) the click is
simply skipped and the item is reported Added even though the control was
never activated. -/
theorem addItem_absent_control_counterexample_c6 :
    (addItemRun absentBtnPage "milk" (some 1)).result =
      .ok (.added "milk" "milk" (some 1)) ∧
    (addItemRun absentBtnPage "milk" (some 1)).addClicked = false := by decide

/-- C6 (amended): an unresponsive add-to-cart control (a click that throws a
non-rate-limit error) does yield a Failed result via the catch block, but an
absent control (zero locator matches) is skipped by the `if (await
addBtn.count())` guard and the item is optimistically reported Added with no
activation. -/
theorem addItem_add_control_c6 (env : PageEnv) (q : String) (qty : Option Int)
    (hs : env.searchErr = none) (hc : env.cards ≠ []) (hk : env.cardClickErr = none) :
    (env.addBtnCount ≠ 0 → ∀ m, env.addBtnClickErr = some m →
      isRateLimitMsg m = false →
      (addItemRun env q qty).result = .ok (.failed q m) ∧
      (addItemRun env q qty).addClicked = false) ∧
    (env.addBtnCount = 0 →
      (addItemRun env q qty).result = .ok (.added q q qty) ∧
      (addItemRun env q qty).addClicked = false) := by
  have hemp : env.cards.isEmpty = false := by
    cases hcc : env.cards with
    | nil => exact absurd hcc hc
    | cons a l => rfl
  constructor
  · intro hbc m hm hrl
    have hbc2 : (env.addBtnCount != 0) = true := by
      simp [bne_iff_ne]; exact hbc
    simp [addItemRun, hs, hk, hemp, hbc2, hm, addCatch, hrl]
  · intro hbc
    simp [addItemRun, hs, hk, hemp, hbc, finishAdd]

theorem addItem_add_control_c6_witness :
    (badBtnPage.addBtnCount ≠ 0 ∧ isRateLimitMsg "element is not enabled" = false) ∧
    (addItemRun badBtnPage "milk" (some 1)).result =
      .ok (.failed "milk" "element is not enabled") ∧
    (addItemRun badBtnPage "milk" (some 1)).addClicked = false :=
  ⟨⟨by decide, by decide⟩,
   (addItem_add_control_c6 badBtnPage "milk" (some 1) rfl (by decide) rfl).1
     (by decide) "element is not enabled" rfl (by decide)⟩

/-- C2: on every execution path of the batch handler, `browser?.close()` in
the `finally` block closes the opened handle exactly once — once whenever
`openBrowser` succeeded (full completion, cookie/session setup failure, or
per-item failures), and zero times when no handle was opened (empty items or
a connection failure, where `browser` is still `null`) — and a throw from
the close itself is swallowed by the empty catch, never changing the
records written or the processed count. -/
theorem handler_release_once_c2 (b b2 : Bool) (env : HandlerEnv) :
    (runHandler b env).closes =
      (if env.items.isEmpty then 0 else if env.openOk then 1 else 0) ∧
    (runHandler b env).writes = (runHandler b2 env).writes ∧
    (runHandler b env).processed = (runHandler b2 env).processed ∧
    (runHandler b env).releaseThrew = (b && !env.items.isEmpty && env.openOk) := by
  cases h1 : env.items.isEmpty <;> cases h2 : env.openOk <;>
    cases hc : env.cookieErr <;> cases hl : env.loginFail <;>
      simp [runHandler, h1, h2, hc, hl]

/-- C7: the connector makes at most 3 attempts; backoff delays are strictly
increasing (`500*attempt` ms after attempt 1, then 2); a failure classified
as rate-limit is retried while any other failure aborts immediately with
that error and no further attempts; and when all 3 attempts fail on
rate-limit signals the connector throws the last underlying failure (the
raise is `throw lastErr` itself, which is the spec's ConnectionError
carrying the last failure). -/
theorem openBrowser_retry_c7 (ws : String) (oc : Nat → AttemptOutcome) :
    (openBrowser ws oc).attempts ≤ 3 ∧
    List.Chain' (· < ·) (openBrowser ws oc).backoffs ∧
    (∀ m1 m2 m3, normalizeWs ws ≠ "" →
      oc 1 = .err m1 → oc 2 = .err m2 → oc 3 = .err m3 →
      isRateLimitMsg m1 = true → isRateLimitMsg m2 = true → isRateLimitMsg m3 = true →
      (openBrowser ws oc).result = .error m3 ∧ (openBrowser ws oc).attempts = 3 ∧
      (openBrowser ws oc).backoffs = [500, 1000]) ∧
    (∀ a m, 1 ≤ a → a ≤ 3 → normalizeWs ws ≠ "" →
      (∀ j, 1 ≤ j → j < a → ∃ mj, oc j = .err mj ∧ isRateLimitMsg mj = true) →
      oc a = .err m → isRateLimitMsg m = false →
      (openBrowser ws oc).result = .error m ∧ (openBrowser ws oc).attempts = a) := by
  by_cases hws : normalizeWs ws = ""
  · refine ⟨by simp [openBrowser, hws], by simp [openBrowser, hws], ?_, ?_⟩
    · intro m1 m2 m3 hne _ _ _ _ _ _; exact absurd hws hne
    · intro a m _ _ hne _ _ _; exact absurd hws hne
  · have hob : openBrowser ws oc = openBrowserGo oc 3 1 "" := by
      simp [openBrowser, hws]
    rw [hob, openBrowserGo_run]
    refine ⟨?_, ?_, ?_, ?_⟩
    · cases h1 : oc 1 with
      | ok => simp
      | err m1 =>
        cases hr1 : isRateLimitMsg m1 with
        | false => simp [hr1]
        | true =>
          cases h2 : oc 2 with
          | ok => simp [hr1]
          | err m2 =>
            cases hr2 : isRateLimitMsg m2 with
            | false => simp [hr1, hr2]
            | true =>
              cases h3 : oc 3 with
              | ok => simp [hr1, hr2]
              | err m3 => simp [hr1, hr2]
    · cases h1 : oc 1 with
      | ok => simp
      | err m1 =>
        cases hr1 : isRateLimitMsg m1 with
        | false => simp [hr1]
        | true =>
          cases h2 : oc 2 with
          | ok => simp [hr1]
          | err m2 =>
            cases hr2 : isRateLimitMsg m2 with
            | false => simp [hr1, hr2]
            | true =>
              cases h3 : oc 3 with
              | ok => simp [hr1, hr2]
              | err m3 => simp [hr1, hr2]
    · intro m1 m2 m3 _ h1 h2 h3 r1 r2 r3
      simp [h1, h2, h3, r1, r2, r3]
    · intro a m ha1 ha3 _ hprev hm hr
      interval_cases a
      · simp [hm, hr]
      · obtain ⟨m1, ho1, hr1⟩ := hprev 1 (by omega) (by omega)
        simp [ho1, hr1, hm, hr]
      · obtain ⟨m1, ho1, hr1⟩ := hprev 1 (by omega) (by omega)
        obtain ⟨m2, ho2, hr2⟩ := hprev 2 (by omega) (by omega)
        simp [ho1, hr1, ho2, hr2, hm, hr]

theorem openBrowser_retry_c7_witness :
    (normalizeWs "wss://h" ≠ "" ∧ isRateLimitMsg "429 Too Many Requests" = true) ∧
    (openBrowser "wss://h" ocRL).result = .error "429 Too Many Requests" ∧
    (openBrowser "wss://h" ocRL).attempts = 3 ∧
    (openBrowser "wss://h" ocRL).backoffs = [500, 1000] :=
  ⟨⟨by decide, by decide⟩,
   (openBrowser_retry_c7 "wss://h" ocRL).2.2.1
     "429 Too Many Requests" "429 Too Many Requests" "429 Too Many Requests"
     (by decide) rfl rfl rfl (by decide) (by decide) (by decide)⟩

lemma openBrowserGo_proto (oc : Nat → AttemptOutcome) :
    ∀ (f a : Nat) (last : String),
      (openBrowserGo oc f a last).protoTries =
        List.replicate (openBrowserGo oc f a last).attempts Protocol.primary := by
  intro f
  induction f with
  | zero => intro a last; simp [openBrowserGo]
  | succ f ih =>
    intro a last
    cases h : oc a with
    | ok => simp [openBrowserGo, h]
    | err m =>
      cases hr : isRateLimitMsg m with
      | false => simp [openBrowserGo, h, hr]
      | true =>
        by_cases ha : a < 3
        · simp [openBrowserGo, h, hr, ha, ih, List.replicate_succ]
        · simp [openBrowserGo, h, hr, ha]

lemma openBrowserV1Go_3 (oc1 oc2 : Nat → AttemptOutcome) (last : String) :
    openBrowserV1Go oc1 oc2 3 1 last =
      match oc1 1 with
      | .ok => ⟨.ok (), 1, [], [.primary]⟩
      | .err m1 =>
        match oc2 1 with
        | .ok => ⟨.ok (), 1, [], [.primary, .cdp]⟩
        | .err m2 =>
          if isRateLimitMsg m1 || isRateLimitMsg m2 then
            let r := openBrowserV1Go oc1 oc2 2 2 m2
            ⟨r.result, r.attempts + 1, 500 :: r.backoffs, .primary :: .cdp :: r.protoTries⟩
          else ⟨.error m2, 1, [], [.primary, .cdp]⟩ := rfl

/-- C8 (amended): in the current connector (add-real.ts) every attempt tries
only the single `playwright.chromium.connect` protocol — its protocol trace
is `primary` repeated once per attempt, so a primary failure is never
followed by a secondary try and the attempt counts as failed as soon as the
single protocol fails. The claimed primary-then-fallback behaviour exists
only in the earlier variant (src/unnamed/part_001), where a primary failure
on attempt 1 is immediately followed by a CDP try, and the attempt succeeds
(is not counted as failed) whenever the CDP fallback succeeds. -/
theorem openBrowser_protocols_c8 :
    (∀ (ws : String) (oc : Nat → AttemptOutcome),
      (openBrowser ws oc).protoTries =
        List.replicate (openBrowser ws oc).attempts Protocol.primary) ∧
    (∀ (ws : String) (oc1 oc2 : Nat → AttemptOutcome) (m1 : String),
      normalizeWs ws ≠ "" → oc1 1 = .err m1 →
      (∃ rest, (openBrowserV1 ws oc1 oc2).protoTries =
        .primary :: .cdp :: rest) ∧
      (oc2 1 = .ok → (openBrowserV1 ws oc1 oc2).result = .ok () ∧
        (openBrowserV1 ws oc1 oc2).attempts = 1)) := by
  constructor
  · intro ws oc
    by_cases hws : normalizeWs ws = ""
    · simp [openBrowser, hws]
    · simp only [openBrowser, hws, if_false]
      exact openBrowserGo_proto oc 3 1 ""
  · intro ws oc1 oc2 m1 hws h1
    have hob : openBrowserV1 ws oc1 oc2 = openBrowserV1Go oc1 oc2 3 1 "" := by
      simp [openBrowserV1, hws]
    constructor
    · rw [hob, openBrowserV1Go_3]
      cases h2 : oc2 1 with
      | ok => exact ⟨[], by simp [h1, h2]⟩
      | err m2 =>
        cases hr : (isRateLimitMsg m1 || isRateLimitMsg m2) with
        | true =>
          exact ⟨(openBrowserV1Go oc1 oc2 2 2 m2).protoTries, by simp [h1, h2, hr]⟩
        | false => exact ⟨[], by simp [h1, h2, hr]⟩
    · intro h2
      rw [hob, openBrowserV1Go_3]
      simp [h1, h2]

/-- C8: counterexample to the claim as stated — in add-real.ts a failing
first attempt tries only the primary protocol and the whole call fails
with no secondary (CDP) try at all. -/
theorem openBrowser_no_fallback_counterexample_c8 :
    (openBrowser "wss://h" ocBoom).protoTries = [Protocol.primary] ∧
    Protocol.cdp ∉ (openBrowser "wss://h" ocBoom).protoTries ∧
    (openBrowser "wss://h" ocBoom).result = .error "connection refused" ∧
    (openBrowser "wss://h" ocBoom).attempts = 1 := by decide

theorem openBrowser_protocols_c8_witness :
    (normalizeWs "wss://h" ≠ "" ∧ ocBoom 1 = .err "connection refused") ∧
    (∃ rest, (openBrowserV1 "wss://h" ocBoom ocOK).protoTries =
      .primary :: .cdp :: rest) ∧
    (openBrowserV1 "wss://h" ocBoom ocOK).result = .ok () :=
  ⟨⟨by decide, rfl⟩,
   (openBrowser_protocols_c8.2 "wss://h" ocBoom ocOK "connection refused"
      (by decide) rfl).1,
   ((openBrowser_protocols_c8.2 "wss://h" ocBoom ocOK "connection refused"
      (by decide) rfl).2 rfl).1⟩

/-- C9: when the first `addItem` call for an item throws a rate-limit signal
(a thrown value whose string form contains "429"), the orchestrator sleeps
the 30-second cooldown exactly once and retries that same item exactly once
(two calls total); a retry that returns a result records that result — in
particular a successful retry records Added, not Failed — while a retry that
throws again records `Failed(query, String(err2))`; and the batch continues,
still emitting exactly one progress record per remaining item. -/
theorem orchestrator_ratelimit_retry_c9 (e1 e2 : PageEnv) (q : String)
    (qty : Option Int) (m : String)
    (h1 : (addItemRun e1 q qty).result = .error m)
    (h2 : containsSub "429" m = true) :
    (processItem e1 e2 q qty).cooldowns = 1 ∧
    (processItem e1 e2 q qty).calls = 2 ∧
    (∀ a t k, (addItemRun e2 q qty).result = .ok (.added a t k) →
      (processItem e1 e2 q qty).result = .added a t k ∧
      (processItem e1 e2 q qty).okReturn = true) ∧
    (∀ m2, (addItemRun e2 q qty).result = .error m2 →
      (processItem e1 e2 q qty).result = .failed q m2 ∧
      (processItem e1 e2 q qty).okReturn = false) ∧
    (∀ (pe : Nat → PageEnv × PageEnv) (total : Nat) (items : List ReqItem)
        (i p : Nat),
      (progressProcessed (runItemsGo pe total items i p).recs).length =
        items.length) := by
  have hpi : processItem e1 e2 q qty =
      (match (addItemRun e2 q qty).result with
       | .ok r => ⟨r, true, 1, 2⟩
       | .error m2 => ⟨.failed q m2, false, 1, 2⟩) := by
    unfold processItem
    rw [h1]
    simp [h2]
  refine ⟨?_, ?_, ?_, ?_, ?_⟩
  · rw [hpi]; cases hr : (addItemRun e2 q qty).result <;> simp
  · rw [hpi]; cases hr : (addItemRun e2 q qty).result <;> simp
  · intro a t k hres; rw [hpi, hres]; exact ⟨rfl, rfl⟩
  · intro m2 hres; rw [hpi, hres]; exact ⟨rfl, rfl⟩
  · intro pe total items i p
    rw [runItemsGo_progress_counts, runningCounts_length, okFlags_length]

theorem orchestrator_ratelimit_retry_c9_witness :
    ((addItemRun rlPage "milk" (some 2)).result = .error err429Str ∧
      containsSub "429" err429Str = true) ∧
    (processItem rlPage okPage "milk" (some 2)).cooldowns = 1 ∧
    (processItem rlPage okPage "milk" (some 2)).calls = 2 ∧
    (processItem rlPage okPage "milk" (some 2)).result =
      .added "milk" "milk" (some 2) :=
  ⟨⟨by decide, by decide⟩,
   (orchestrator_ratelimit_retry_c9 rlPage okPage "milk" (some 2) err429Str
      (by decide) (by decide)).1,
   (orchestrator_ratelimit_retry_c9 rlPage okPage "milk" (some 2) err429Str
      (by decide) (by decide)).2.1,
   ((orchestrator_ratelimit_retry_c9 rlPage okPage "milk" (some 2) err429Str
      (by decide) (by decide)).2.2.1 "milk" "milk" (some 2) (by decide)).1⟩

/-- C10: in the streaming handler the `processed` counter advances exactly
when the recorded `addItem` call returned without throwing — the sequence of
counters carried by the progress records is the running count of
non-throwing returns — one progress record is emitted per input item
followed by one terminal `done` record, and the final processed count never
exceeds (and, as the concrete double-rate-limit run shows, can end strictly
below) the total item count. -/
theorem handler_progress_counter_c10 :
    (∀ (b : Bool) (env : HandlerEnv), env.items.isEmpty = false →
      env.openOk = true → env.cookieErr = none → env.loginFail = false →
      progressProcessed (runHandler b env).writes =
        runningCounts 0 (okFlags env.pageEnvs env.items 0) ∧
      (progressProcessed (runHandler b env).writes).length = env.items.length ∧
      (∃ pre, (runHandler b env).writes =
        pre ++ [OutRecord.done env.items.length]) ∧
      (runHandler b env).processed = (okFlags env.pageEnvs env.items 0).count true ∧
      (runHandler b env).processed ≤ env.items.length) ∧
    ((runHandler false cEnv429).processed = 0 ∧ cEnv429.items.length = 1 ∧
      (runHandler false cEnv429).writes =
        [OutRecord.progress 0 1 "milk" (.failed "milk" err429Str),
          OutRecord.done 1]) := by
  constructor
  · intro b env he ho hc hl
    have hw : (runHandler b env).writes =
        (runItemsGo env.pageEnvs env.items.length env.items 0 0).recs := by
      simp [runHandler, he, ho, hc, hl]
    have hp : (runHandler b env).processed =
        (runItemsGo env.pageEnvs env.items.length env.items 0 0).processed := by
      simp [runHandler, he, ho, hc, hl]
    refine ⟨?_, ?_, ?_, ?_, ?_⟩
    · rw [hw, runItemsGo_progress_counts]
    · rw [hw, runItemsGo_progress_counts, runningCounts_length, okFlags_length]
    · rw [hw]; exact runItemsGo_terminal _ _ _ _ _
    · rw [hp, runItemsGo_processed]; simp
    · rw [hp, runItemsGo_processed]
      have hcl : (okFlags env.pageEnvs env.items 0).count true ≤
          (okFlags env.pageEnvs env.items 0).length := List.count_le_length _ _
      have hfl := okFlags_length env.pageEnvs env.items 0
      omega
  · exact ⟨by decide, by decide, by decide⟩

theorem handler_progress_counter_c10_witness :
    (cEnvOk.items.isEmpty = false ∧ cEnvOk.openOk = true) ∧
    progressProcessed (runHandler false cEnvOk).writes =
      runningCounts 0 (okFlags cEnvOk.pageEnvs cEnvOk.items 0) ∧
    (runHandler false cEnvOk).processed ≤ cEnvOk.items.length :=
  ⟨⟨by decide, rfl⟩,
   (handler_progress_counter_c10.1 false cEnvOk (by decide) rfl rfl rfl).1,
   (handler_progress_counter_c10.1 false cEnvOk (by decide) rfl rfl rfl).2.2.2.2⟩
